import Mathlib

/-!
Verification of the provider-routing and intent-classification core of the
copilot-desktop backend, as a shallow embedding in Lean 4.

The embedding covers:
* `src/server/services/providers/provider_manager.py` (`ProviderManager`),
* `src/server/services/intent.py` (`IntentRecognitionService`),
* the numeric-parameter resolution at the head of `chat_completion` in
  `src/server/services/providers/ollama_provider.py` and
  `src/server/services/providers/openai_provider.py`.

Python floats are modelled as rationals (`ℚ`); the arithmetic performed by the
code (sums of small decimal constants, `min`, `max`, division by small list
lengths) is exact over `ℚ`.  Python strings are modelled as Lean `String`
(lists of characters); the string operations used by the code
(`str.lower`, `str.strip`, `str.split`, substring `in`) are embedded for the
ASCII fragment, which is the fragment the code's keyword tables live in.
An adapter call's outcome is modelled as an `Except` value; the side effect
of performing the call is outside the embedding, and a dispatch is a function
from provider name to that provider's outcome for the request at hand.
-/

/-! ## Python string primitives -/

/-- Python truthiness of an ASCII character being upper-case, used by
`str.lower`: an upper-case ASCII letter is shifted down by 32. -/
def pyLowerChar (c : Char) : Char :=
  if 'A' ≤ c ∧ c ≤ 'Z' then Char.ofNat (c.toNat + 32) else c

/-- Embedding of Python `str.lower()` on the ASCII fragment. -/
def pyLower (s : String) : String :=
  String.mk (s.data.map pyLowerChar)

/-- The whitespace characters stripped by Python `str.strip()` /
split on by `str.split()` (ASCII fragment). -/
def isPySpace (c : Char) : Bool :=
  c == ' ' || c == '\t' || c == '\n' || c == '\r' || c == '\x0b' || c == '\x0c'

/-- Embedding of Python `str.strip()` (ASCII whitespace). -/
def pyStrip (s : String) : String :=
  String.mk (((s.data.dropWhile isPySpace).reverse.dropWhile isPySpace).reverse)

/-- `startsWith n h` holds when the character list `n` is a prefix of `h`. -/
def startsWith : List Char → List Char → Bool
  | [], _ => true
  | _ :: _, [] => false
  | a :: as, b :: bs => a == b && startsWith as bs

/-- Embedding of Python's substring test `needle in haystack`. -/
def containsAux (n : List Char) : List Char → Bool
  | [] => startsWith n []
  | h :: t => startsWith n (h :: t) || containsAux n t

/-- Embedding of Python's substring test on `String`. -/
def strContains (needle haystack : String) : Bool :=
  containsAux needle.data haystack.data

/-- Helper for Python `str.split()`: accumulates the current word (reversed)
and splits on runs of whitespace, producing no empty words. -/
def pySplitAux : List Char → List Char → List String
  | [], acc => if acc.isEmpty then [] else [String.mk acc.reverse]
  | c :: rest, acc =>
    if isPySpace c then
      if acc.isEmpty then pySplitAux rest []
      else String.mk acc.reverse :: pySplitAux rest []
    else pySplitAux rest (c :: acc)

/-- Embedding of Python `str.split()` with no arguments. -/
def pySplit (s : String) : List String :=
  pySplitAux s.data []

/-! ## The regular-expression fragment used by `intent.py`

Every pattern in `IntentRecognitionService._initialize_patterns` has the shape
`G1.*G2.*…*Gn` where each `Gi` is either a literal or an alternation
`(a|b|…)` of literals.  Such a pattern is represented as a list of groups,
each group a list of literal alternatives.  `re.search` semantics for this
fragment: the pattern matches somewhere in the text, where `.` matches any
character except a newline (so the gaps between groups may not cross a
newline, while the text scanned before the first group may). -/

/-- `reScan g k t` holds when one alternative of the group `g` matches at a
position of `t` reachable from the head without crossing a newline, and the
continuation `k` holds on the text remaining after that match. -/
def reScan (g : List String) (k : List Char → Bool) : List Char → Bool
  | [] => g.any fun alt => alt.data.isEmpty && k []
  | c :: rest =>
    (g.any fun alt =>
      startsWith alt.data (c :: rest) && k ((c :: rest).drop alt.data.length)) ||
    (c != '\n' && reScan g k rest)

/-- `reMatch p t` holds when the group sequence `p` matches within `t`
starting at any position reachable from the head of `t` without crossing a
newline, each gap between consecutive groups also newline-free. -/
def reMatch : List (List String) → List Char → Bool
  | [] => fun _ => true
  | g :: gs => reScan g (reMatch gs)

/-- Embedding of `re.search(pattern, text)` for the pattern fragment above:
the match may start at any position of the text. -/
def reSearch (p : List (List String)) : List Char → Bool
  | [] => reMatch p []
  | t@(_ :: rest) => reMatch p t || reSearch p rest

/-! ## Data model of an intent verdict -/

/-- A value stored in a verdict's `parameters` dictionary. -/
inductive PValue where
  | s (v : String)
  | b (v : Bool)
deriving DecidableEq, Repr

/-- A parameters dictionary, as an association list in insertion order. -/
abbrev Params := List (String × PValue)

/-- The dictionary returned by `classify_intent` /
`_rule_based_classification` / `_combine_classifications`.  Keys absent from
a given dictionary (`llm_reasoning` on a pure rule-based verdict) are
modelled by the default value `none`. -/
structure Verdict where
  intent : String
  confidence : ℚ
  action : Option String
  query : Option String
  parameters : Params
  method : String
  llmReasoning : Option String := none
deriving DecidableEq, Repr

/-- The dictionary produced by `_llm_based_classification`. -/
structure LLMResult where
  intent : String
  confidence : ℚ
  reasoning : String
  extractedInfo : Params
  method : String
deriving DecidableEq, Repr

/-! ## `IntentRecognitionService._initialize_patterns` -/

/-- One entry of the `intent_patterns` dictionary.  Keys missing from a given
entry default to empty. -/
structure IntentConfig where
  name : String
  keywords : List String := []
  analysisKeywords : List String := []
  appKeywords : List String := []
  commonApps : List String := []
  patterns : List (List (List String)) := []
  confidenceBoost : ℚ := 0

/-- The `common_apps` list of the `open_application` intent entry. -/
def commonAppsList : List String :=
  ["notion", "chrome", "safari", "finder", "terminal", "vscode",
   "slack", "discord", "spotify", "mail", "calendar", "notes"]

/-- The screenshot keyword list shared by the two screenshot intents. -/
def screenshotKeywords : List String :=
  ["screenshot", "screen shot", "capture screen", "take a picture",
   "screen capture", "grab screen", "snap screen", "image of screen"]

/-- Embedding of `_initialize_patterns`: the four intent entries in the
dictionary's insertion order. -/
def intentPatterns : List IntentConfig :=
  [ { name := "take_screenshot_and_analyze"
      keywords := screenshotKeywords
      analysisKeywords :=
        ["analyze", "understand", "explain", "what is", "what does",
         "tell me about", "describe", "read", "interpret", "help with"]
      patterns :=
        [ [["take"], ["screenshot"], ["analyze", "understand", "explain", "tell me", "describe"]],
          [["capture"], ["screen"], ["analyze", "understand", "explain", "tell me", "describe"]],
          [["screenshot"], ["email", "error", "message", "document", "page"]],
          [["analyze", "understand", "explain"], ["screenshot"]] ]
      confidenceBoost := 2/10 },
    { name := "take_screenshot"
      keywords := screenshotKeywords
      patterns :=
        [ [["take"], ["screenshot"]],
          [["capture"], ["screen"]],
          [["grab"], ["screen"]],
          [["snap"], ["screen"]] ]
      confidenceBoost := 1/10 },
    { name := "open_application"
      keywords := ["open", "launch", "start", "run"]
      appKeywords := ["app", "application", "program", "software"]
      commonApps := commonAppsList
      patterns :=
        [ [["open", "launch", "start", "run"], commonAppsList],
          [["open", "launch", "start", "run"], ["app", "application", "program"]] ]
      confidenceBoost := 15/100 },
    { name := "chat" } ]

/-! ## `IntentRecognitionService` helper methods -/

/-- Embedding of `_generate_action_query`: the fixed mapping from intent name
to the `(action, query)` pair, over the lower-cased text. -/
def generateActionQuery (intent : String) (text : String) (_params : Params) :
    Option String × Option String :=
  if intent = "take_screenshot_and_analyze" then
    (some "take_screenshot", some text)
  else if intent = "take_screenshot" then
    (some "take_screenshot", some "What do you see in this screenshot?")
  else if intent = "open_application" then
    (some "open_application", some text)
  else
    (none, none)

/-- The inner loop of `_extract_parameters` for `open_application`: the word
following the first open/launch/start/run verb that is not the last word. -/
def findAppAfterVerb : List String → Option String
  | w1 :: w2 :: rest =>
    if w1 = "open" ∨ w1 = "launch" ∨ w1 = "start" ∨ w1 = "run" then some w2
    else findAppAfterVerb (w2 :: rest)
  | _ => none

/-- Embedding of `_extract_parameters`. -/
def extractParameters (intent : String) (text : String) : Params :=
  if intent = "open_application" then
    match commonAppsList.find? (fun app => strContains app text) with
    | some app => [("application_name", PValue.s app)]
    | none =>
      match findAppAfterVerb (pySplit text) with
      | some w => [("application_name", PValue.s w)]
      | none => []
  else if intent = "take_screenshot" ∨ intent = "take_screenshot_and_analyze" then
    if intent = "take_screenshot_and_analyze" then
      [("auto_capture", PValue.b true), ("analysis_query", PValue.s text)]
    else
      [("auto_capture", PValue.b true),
       ("analysis_query", PValue.s "What do you see in this screenshot?")]
  else []

/-- The confidence the scoring loop of `_rule_based_classification` computes
for one intent entry: keyword fraction, intent-specific bonus, regex bonus,
fixed boost. -/
def scoreIntent (cfg : IntentConfig) (textLower : String) : ℚ :=
  let keywordMatches := (cfg.keywords.filter (fun k => strContains k textLower)).length
  let c1 : ℚ :=
    if cfg.keywords.isEmpty then 0
    else ((keywordMatches : ℚ) / (cfg.keywords.length : ℚ)) * (4/10)
  let c2 : ℚ :=
    if cfg.name = "take_screenshot_and_analyze" then
      let analysisMatches :=
        (cfg.analysisKeywords.filter (fun k => strContains k textLower)).length
      if analysisMatches > 0 ∧ keywordMatches > 0 then 4/10 else 0
    else if cfg.name = "open_application" then
      let appKeywordMatches :=
        (cfg.appKeywords.filter (fun k => strContains k textLower)).length
      let appNameMatches :=
        (cfg.commonApps.filter (fun a => strContains a textLower)).length
      if appKeywordMatches > 0 ∨ appNameMatches > 0 then 3/10 else 0
    else 0
  let c3 : ℚ :=
    if cfg.patterns.any (fun p => reSearch p textLower.data) then 3/10 else 0
  c1 + c2 + c3 + cfg.confidenceBoost

/-- The best-candidate fold of `_rule_based_classification`: starts from the
default `("chat", 0.3, {})` and replaces it only on strictly greater
confidence, in the insertion order of `intent_patterns`. -/
def bestIntent (textLower : String) : String × ℚ × Params :=
  intentPatterns.foldl
    (fun best cfg =>
      let confidence := scoreIntent cfg textLower
      if confidence > best.2.1 then
        (cfg.name, confidence, extractParameters cfg.name textLower)
      else best)
    ("chat", 3/10, [])

/-- Embedding of `_rule_based_classification`. -/
def ruleBasedClassification (textLower : String) : Verdict :=
  let best := bestIntent textLower
  let aq := generateActionQuery best.1 textLower best.2.2
  { intent := best.1
    confidence := min best.2.1 1
    action := aq.1
    query := aq.2
    parameters := best.2.2
    method := "rule_based" }

/-- Embedding of `_combine_classifications`. -/
def combineClassifications (ruleResult : Verdict) (llmResult : LLMResult)
    (originalText : String) : Verdict :=
  if ruleResult.intent = llmResult.intent then
    { intent := ruleResult.intent
      confidence := min (max ruleResult.confidence llmResult.confidence + 1/10) 1
      action := ruleResult.action
      query := ruleResult.query
      parameters := ruleResult.parameters
      method := "combined"
      llmReasoning := some llmResult.reasoning }
  else if llmResult.confidence > ruleResult.confidence then
    let aq := generateActionQuery llmResult.intent (pyLower originalText) []
    { intent := llmResult.intent
      confidence := llmResult.confidence
      action := aq.1
      query := aq.2
      parameters := llmResult.extractedInfo
      method := "llm_preferred"
      llmReasoning := some llmResult.reasoning }
  else
    { ruleResult with
      method := "rule_preferred"
      llmReasoning := some llmResult.reasoning }

/-- Embedding of `classify_intent`.  The LLM phase's outcome — what
`_llm_based_classification(text)` would return, or the exception it would
raise — is passed in as an `Except` value: the phase is external I/O.
`llmAvailable` is `self.llm_service and self.llm_service.is_available()`. -/
def classifyIntent (text : String) (useLLM : Bool) (llmAvailable : Bool)
    (llmOutcome : Except String LLMResult) : Verdict :=
  let textLower := pyStrip (pyLower text)
  let ruleResult := ruleBasedClassification textLower
  if useLLM && llmAvailable then
    match llmOutcome with
    | Except.ok llmResult => combineClassifications ruleResult llmResult text
    | Except.error _ => ruleResult
  else ruleResult

/-! ## `ProviderManager` (`provider_manager.py`)

The mutable fields of a `ProviderManager` that the routing logic reads:
the keys of the `providers` dictionary in insertion order, the
`active_provider` name and the `fallback_order` list.  An adapter's
`chat_completion` outcome for the request at hand is a value of
`Except String String` (error message or response), and one dispatch sees a
function from provider name to outcome. -/

structure RouterState where
  providers : List String
  activeProvider : Option String
  fallbackOrder : List String
deriving DecidableEq, Repr

/-- Python truthiness of an `Optional[str]`: `None` and the empty string are
falsy. -/
def pyTruthy : Option String → Bool
  | none => false
  | some s => !(s = "")

/-- The fallback loop of `ProviderManager.chat_completion` (lines 118–126):
attempt each provider of `fallback_order` in sequence, return the first
success, and once the loop is exhausted re-raise the original error. -/
def tryFallbacks (order : List String) (results : String → Except String String)
    (origErr : String) : Except String String :=
  match order with
  | [] => Except.error origErr
  | p :: rest =>
    match results p with
    | Except.ok r => Except.ok r
    | Except.error _ => tryFallbacks rest results origErr

/-- Embedding of `ProviderManager.chat_completion` (lines 102–129):
resolve the target provider (`provider or self.active_provider`, by Python
truthiness), fail when the target is falsy or unregistered, call the target,
and on failure run the fallback loop only when `use_fallback` holds and no
truthy explicit provider was passed. -/
def chatCompletion (st : RouterState) (provider : Option String)
    (useFallback : Bool) (results : String → Except String String) :
    Except String String :=
  let targetProvider := if pyTruthy provider then provider else st.activeProvider
  match targetProvider with
  | none => Except.error "Provider 'None' not available"
  | some target =>
    if target = "" ∨ target ∉ st.providers then
      Except.error ("Provider '" ++ target ++ "' not available")
    else
      match results target with
      | Except.ok r => Except.ok r
      | Except.error e =>
        if useFallback && !(pyTruthy provider) then
          tryFallbacks st.fallbackOrder results e
        else Except.error e

/-- `Except.ok`-ness as a boolean, for locating the first fallback success. -/
def exceptOk (r : Except String String) : Bool :=
  match r with
  | Except.ok _ => true
  | Except.error _ => false

/-- The `active_provider` assignment of `_setup_provider_order`
(lines 60–65): the preferred provider when registered, otherwise the first
registered provider, otherwise the field is left unchanged. -/
def setupActive (preferredProvider : String) (st : RouterState) : Option String :=
  if preferredProvider ∈ st.providers then some preferredProvider
  else
    match st.providers with
    | [] => st.activeProvider
    | k :: _ => some k

/-- Embedding of `ProviderManager._setup_provider_order` (lines 55–75):
the preferred provider becomes active when registered, otherwise the first
registered provider; the fallback order is the configured priority list
restricted to registered providers other than the new active one. -/
def setupProviderOrder (preferredProvider : String) (priorityOrder : List String)
    (st : RouterState) : RouterState :=
  { st with
    activeProvider := setupActive preferredProvider st
    fallbackOrder :=
      priorityOrder.filter
        (fun p => p ∈ st.providers ∧ setupActive preferredProvider st ≠ some p) }

/-- Embedding of `ProviderManager.set_active_provider` (lines 166–175):
returns the updated state and the boolean result. -/
def setActiveProvider (providerName : String) (st : RouterState) :
    RouterState × Bool :=
  if providerName ∈ st.providers then
    ({ st with
       activeProvider := some providerName
       fallbackOrder := st.fallbackOrder.filter (fun p => p ≠ providerName) },
     true)
  else (st, false)

/-- The `ProviderManager` state right after `__init__` followed by the
registration loop of `initialize()` (lines 30–49), just before
`_setup_provider_order` runs: the successfully initialized provider names
are present, `active_provider` is still `None` and `fallback_order` empty. -/
def initRouterState (initializedProviders : List String) : RouterState :=
  { providers := initializedProviders
    activeProvider := none
    fallbackOrder := [] }

/-- State after `initialize()` (lines 30–53): registration then
`_setup_provider_order`. -/
def routerAfterInitialize (initializedProviders : List String)
    (preferredProvider : String) (priorityOrder : List String) : RouterState :=
  setupProviderOrder preferredProvider priorityOrder
    (initRouterState initializedProviders)

/-- Applying a sequence of `set_active_provider` calls, dropping the boolean
results. -/
def applyActiveCalls (calls : List String) (st : RouterState) : RouterState :=
  calls.foldl (fun s n => (setActiveProvider n s).1) st

/-- The invariant of claim C3: a set `active_provider` is registered and
absent from `fallback_order`. -/
def routerInv (st : RouterState) : Prop :=
  ∀ a, st.activeProvider = some a → a ∈ st.providers ∧ a ∉ st.fallbackOrder

/-! ## Adapter numeric-parameter resolution
(`ollama_provider.py` / `openai_provider.py`, `chat_completion` lines 55–58)

Both adapters resolve the caller's optional parameters with Python `or`:
`model = model or self.default_model`,
`max_tokens = max_tokens or self.default_max_tokens`,
`temperature = temperature or self.default_temperature`.
`or` substitutes the default whenever the caller's value is falsy, which for
numbers means absent *or equal to zero*. -/

/-- Python `x or default` for an optional string. -/
def pyOrStr (caller : Option String) (dflt : String) : String :=
  match caller with
  | none => dflt
  | some v => if v = "" then dflt else v

/-- Python `x or default` for an optional integer. -/
def pyOrInt (caller : Option Int) (dflt : Int) : Int :=
  match caller with
  | none => dflt
  | some v => if v = 0 then dflt else v

/-- Python `x or default` for an optional float (modelled as `ℚ`). -/
def pyOrRat (caller : Option ℚ) (dflt : ℚ) : ℚ :=
  match caller with
  | none => dflt
  | some v => if v = 0 then dflt else v

/-- The adapter's configured defaults (`self.default_model`,
`self.default_max_tokens`, `self.default_temperature`). -/
structure AdapterDefaults where
  defaultModel : String
  defaultMaxTokens : Int
  defaultTemperature : ℚ
deriving DecidableEq, Repr

/-- The `(model, max_tokens, temperature)` triple that
`OllamaProvider.chat_completion` places into the backend request payload,
after lines 55–58. -/
def ollamaResolvedParams (d : AdapterDefaults) (model : Option String)
    (maxTokens : Option Int) (temperature : Option ℚ) : String × Int × ℚ :=
  (pyOrStr model d.defaultModel,
   pyOrInt maxTokens d.defaultMaxTokens,
   pyOrRat temperature d.defaultTemperature)

/-- The `(model, max_tokens, temperature)` triple that
`OpenAIProvider.chat_completion` passes to the backend client, after its
identical lines 55–58. -/
def openaiResolvedParams (d : AdapterDefaults) (model : Option String)
    (maxTokens : Option Int) (temperature : Option ℚ) : String × Int × ℚ :=
  (pyOrStr model d.defaultModel,
   pyOrInt maxTokens d.defaultMaxTokens,
   pyOrRat temperature d.defaultTemperature)

/-! ## Theorems -/

set_option maxRecDepth 100000

/-- The fallback loop returns the first successful fallback's result, and the
original error once the list is exhausted. -/
theorem tryFallbacks_eq_find (order : List String)
    (results : String → Except String String) (e : String) :
    tryFallbacks order results e =
      match order.find? (fun p => exceptOk (results p)) with
      | some p => results p
      | none => Except.error e := by
  induction order with
  | nil => rfl
  | cons p rest ih =>
    cases h : results p with
    | ok r => simp [tryFallbacks, h, List.find?, exceptOk]
    | error err => simp [tryFallbacks, h, List.find?, exceptOk, ih]

/-- C1: `chat_completion` with no explicit provider and `use_fallback=true`,
when the active (target) provider's adapter call fails, attempts the
adapters in `fallback_order` in sequence and returns the result of the first
that succeeds; if every fallback fails, the raised error is the original
target provider's error. -/
theorem chat_completion_fallback_sequence (st : RouterState)
    (results : String → Except String String) (a e : String)
    (hactive : st.activeProvider = some a) (hne : a ≠ "")
    (hmem : a ∈ st.providers) (hfail : results a = Except.error e) :
    chatCompletion st none true results =
      match st.fallbackOrder.find? (fun p => exceptOk (results p)) with
      | some p => results p
      | none => Except.error e := by
  rw [← tryFallbacks_eq_find]
  simp [chatCompletion, pyTruthy, hactive, hne, hmem, hfail]

/-- Witness for C1: active provider `openai` fails, fallback order is
`[gemini, ollama]`, `gemini` fails and `ollama` succeeds; the dispatch
returns `ollama`'s result. -/
theorem chat_completion_fallback_sequence_witness :
    chatCompletion ⟨["openai", "gemini", "ollama"], some "openai", ["gemini", "ollama"]⟩
      none true
      (fun p => if p = "ollama" then Except.ok "pong" else Except.error ("down: " ++ p)) =
      Except.ok "pong" := by
  have h := chat_completion_fallback_sequence
    ⟨["openai", "gemini", "ollama"], some "openai", ["gemini", "ollama"]⟩
    (fun p => if p = "ollama" then Except.ok "pong" else Except.error ("down: " ++ p))
    "openai" "down: openai" rfl (by decide) (by decide) rfl
  exact h.trans rfl

/-- C2: `chat_completion` with an explicit (truthy) provider argument never
attempts fallback: the named provider's failure is raised to the caller,
for any value of `use_fallback` and any state of the other providers. -/
theorem chat_completion_explicit_provider_no_fallback (st : RouterState)
    (results : String → Except String String) (p e : String) (useFallback : Bool)
    (hne : p ≠ "") (hmem : p ∈ st.providers) (hfail : results p = Except.error e) :
    chatCompletion st (some p) useFallback results = Except.error e := by
  simp [chatCompletion, pyTruthy, hne, hmem, hfail]

/-- Witness for C2: explicit provider `gemini` fails while the active
provider `openai` would have succeeded and fallback is enabled; the failure
is still raised. -/
theorem chat_completion_explicit_provider_no_fallback_witness :
    chatCompletion ⟨["openai", "gemini"], some "openai", ["gemini"]⟩ (some "gemini") true
      (fun p => if p = "gemini" then Except.error "gemini down" else Except.ok "hello") =
      Except.error "gemini down" :=
  chat_completion_explicit_provider_no_fallback
    ⟨["openai", "gemini"], some "openai", ["gemini"]⟩
    (fun p => if p = "gemini" then Except.error "gemini down" else Except.ok "hello")
    "gemini" "gemini down" true (by decide) (by decide) rfl

/-- `_setup_provider_order` establishes the router invariant when run from a
state whose `active_provider` is unset (as in `initialize()`). -/
theorem setupProviderOrder_inv (preferred : String) (prio : List String)
    (st : RouterState) (h : st.activeProvider = none) :
    routerInv (setupProviderOrder preferred prio st) := by
  intro a ha
  have ha' : setupActive preferred st = some a := ha
  constructor
  · show a ∈ st.providers
    unfold setupActive at ha'
    by_cases hp : preferred ∈ st.providers
    · rw [if_pos hp] at ha'
      cases ha'
      exact hp
    · rw [if_neg hp] at ha'
      cases hk : st.providers with
      | nil =>
        rw [hk] at ha'
        simp only [h] at ha'
        exact absurd ha' (by simp)
      | cons k rest =>
        rw [hk] at ha'
        simp only [Option.some_inj] at ha'
        subst ha'
        exact List.mem_cons_self k rest
  · intro hmem
    have hmem' : a ∈ prio.filter
        (fun p => decide (p ∈ st.providers ∧ setupActive preferred st ≠ some p)) := hmem
    rw [List.mem_filter] at hmem'
    have hcond := of_decide_eq_true hmem'.2
    exact hcond.2 ha'

/-- `set_active_provider` preserves the router invariant, whether it
succeeds or fails. -/
theorem setActiveProvider_inv (st : RouterState) (n : String)
    (h : routerInv st) : routerInv (setActiveProvider n st).1 := by
  unfold setActiveProvider
  by_cases hn : n ∈ st.providers
  · simp only [hn, if_pos]
    intro a ha
    simp only at ha
    rw [Option.some_inj] at ha
    subst ha
    refine ⟨hn, ?_⟩
    intro hmem
    simp only [List.mem_filter, decide_eq_true_eq] at hmem
    exact hmem.2 rfl
  · simp only [hn, if_neg, not_false_iff]
    exact h

/-- C3: after `initialize()` (provider registration followed by
`_setup_provider_order`) and any sequence of `set_active_provider` calls,
successful or failed, a set `active_provider` is a key of `providers` and
`fallback_order` never contains it. -/
theorem router_invariant_after_init_and_switches
    (initializedProviders : List String) (preferredProvider : String)
    (priorityOrder : List String) (calls : List String) :
    routerInv (applyActiveCalls calls
      (routerAfterInitialize initializedProviders preferredProvider priorityOrder)) := by
  have h0 : routerInv (routerAfterInitialize initializedProviders preferredProvider priorityOrder) :=
    setupProviderOrder_inv preferredProvider priorityOrder _ rfl
  suffices H : ∀ (cs : List String) (st : RouterState), routerInv st →
      routerInv (applyActiveCalls cs st) from H calls _ h0
  intro cs
  induction cs with
  | nil => intro st hst; exact hst
  | cons n rest ih =>
    intro st hst
    have : applyActiveCalls (n :: rest) st = applyActiveCalls rest (setActiveProvider n st).1 := rfl
    rw [this]
    exact ih _ (setActiveProvider_inv st n hst)

/-- C4: when the rule-based and LLM verdicts agree on the intent, the
combined verdict keeps that intent, has confidence
`min(max(rule_conf, llm_conf) + 0.1, 1.0)`, takes action, query and
parameters from the rule-based verdict and carries the agreement method tag
`"combined"` together with the LLM's reasoning. -/
theorem combine_agreement_spec (ruleResult : Verdict) (llmResult : LLMResult)
    (text : String) (h : ruleResult.intent = llmResult.intent) :
    combineClassifications ruleResult llmResult text =
      { intent := ruleResult.intent
        confidence := min (max ruleResult.confidence llmResult.confidence + 1/10) 1
        action := ruleResult.action
        query := ruleResult.query
        parameters := ruleResult.parameters
        method := "combined"
        llmReasoning := some llmResult.reasoning } := by
  simp [combineClassifications, h]

unseal Rat.add Rat.mul Rat.inv in
/-- Witness for C4, the spec's own example: agreement with confidences 0.5
and 0.6 combines to confidence 0.7. -/
theorem combine_agreement_spec_witness :
    combineClassifications
      ⟨"chat", 1/2, none, none, [], "rule_based", none⟩
      ⟨"chat", 3/5, "conversational text", [], "llm_based"⟩ "hello" =
      ⟨"chat", 7/10, none, none, [], "combined", some "conversational text"⟩ := by
  have h := combine_agreement_spec
    ⟨"chat", 1/2, none, none, [], "rule_based", none⟩
    ⟨"chat", 3/5, "conversational text", [], "llm_based"⟩ "hello" rfl
  rw [h]
  decide

/-- C5: when the verdicts disagree, the strictly more confident one wins.
An LLM win re-derives action and query from the LLM's intent label through
the fixed mapping applied to the lowercased original text and takes the
LLM's extracted info as parameters; a rule-based win (including ties)
returns the rule-based verdict unchanged except for the method tag and the
attached LLM reasoning. -/
theorem combine_disagreement_spec (ruleResult : Verdict) (llmResult : LLMResult)
    (text : String) (h : ruleResult.intent ≠ llmResult.intent) :
    (llmResult.confidence > ruleResult.confidence →
      combineClassifications ruleResult llmResult text =
        { intent := llmResult.intent
          confidence := llmResult.confidence
          action := (generateActionQuery llmResult.intent (pyLower text) []).1
          query := (generateActionQuery llmResult.intent (pyLower text) []).2
          parameters := llmResult.extractedInfo
          method := "llm_preferred"
          llmReasoning := some llmResult.reasoning }) ∧
    (ruleResult.confidence ≥ llmResult.confidence →
      combineClassifications ruleResult llmResult text =
        { ruleResult with
          method := "rule_preferred"
          llmReasoning := some llmResult.reasoning }) := by
  constructor
  · intro hgt
    simp [combineClassifications, h, hgt]
  · intro hge
    have hnot : ¬ llmResult.confidence > ruleResult.confidence := not_lt.mpr hge
    simp [combineClassifications, h, hnot]

unseal Rat.add Rat.mul Rat.inv in
/-- Witness for C5: one disagreement the LLM wins (action and query
re-derived from its label over the lowercased text), one the rule-based
verdict wins. -/
theorem combine_disagreement_spec_witness :
    combineClassifications
      ⟨"chat", 1/2, none, none, [], "rule_based", none⟩
      ⟨"open_application", 4/5, "asks to open an app", [], "llm_based"⟩ "Open Notion" =
      ⟨"open_application", 4/5, some "open_application", some "open notion", [],
       "llm_preferred", some "asks to open an app"⟩ ∧
    combineClassifications
      ⟨"chat", 3/4, none, none, [], "rule_based", none⟩
      ⟨"take_screenshot", 1/2, "wants a screenshot", [], "llm_based"⟩ "hello" =
      ⟨"chat", 3/4, none, none, [], "rule_preferred", some "wants a screenshot"⟩ := by
  constructor
  · have h := (combine_disagreement_spec
      ⟨"chat", 1/2, none, none, [], "rule_based", none⟩
      ⟨"open_application", 4/5, "asks to open an app", [], "llm_based"⟩
      "Open Notion" (by decide)).1 (by decide)
    rw [h]
    decide
  · have h := (combine_disagreement_spec
      ⟨"chat", 3/4, none, none, [], "rule_based", none⟩
      ⟨"take_screenshot", 1/2, "wants a screenshot", [], "llm_based"⟩
      "hello" (by decide)).2 (by decide)
    rw [h]

/-- C6: when the LLM classification call raises, `classify_intent`
propagates no exception and returns exactly the rule-based verdict — every
field equal. -/
theorem classify_intent_llm_error_equals_rule (text e : String) :
    classifyIntent text true true (Except.error e) =
      ruleBasedClassification (pyStrip (pyLower text)) := rfl

/-- Counterexample for C7: the verdict returned when the LLM phase fails
carries method tag `"rule_based"`, exactly the tag of a run where the LLM
phase was never attempted — the two are not distinguishable by the method
tag, contrary to the claim. -/
theorem classify_degraded_method_counterexample :
    (classifyIntent "hello" true true (Except.error "network down")).method =
      "rule_based" ∧
    (classifyIntent "hello" false true
      (Except.ok ⟨"chat", 1/2, "smalltalk", [], "llm_based"⟩)).method =
      "rule_based" :=
  ⟨rfl, rfl⟩

/-- C7 as amended: a failed LLM phase returns the rule-based verdict with
method tag `"rule_based"`, the same tag produced when the LLM phase is never
attempted; the degradation is only logged, not reflected in the tag. -/
theorem classify_degraded_method_same_tag (text e : String) (a : Bool)
    (o : Except String LLMResult) :
    (classifyIntent text true true (Except.error e)).method = "rule_based" ∧
    (classifyIntent text false a o).method = "rule_based" :=
  ⟨rfl, rfl⟩

unseal Rat.add Rat.mul Rat.inv in
/-- C8: the rule-based scorer on
`"take a screenshot to understand this email"` produces intent
`take_screenshot_and_analyze`, action `take_screenshot`, query equal to the
full input text, and confidence strictly greater than 0.3. -/
theorem rule_scorer_screenshot_email_example :
    (ruleBasedClassification "take a screenshot to understand this email").intent =
      "take_screenshot_and_analyze" ∧
    (ruleBasedClassification "take a screenshot to understand this email").action =
      some "take_screenshot" ∧
    (ruleBasedClassification "take a screenshot to understand this email").query =
      some "take a screenshot to understand this email" ∧
    (ruleBasedClassification "take a screenshot to understand this email").confidence
      > 3/10 := by
  decide

/-- Counterexample for C9: both adapters resolve parameters with Python
`or`, so a caller-supplied temperature of 0.0 — a falsy value — is replaced
by the configured default instead of being used in the backend request. -/
theorem adapter_temperature_zero_counterexample :
    (ollamaResolvedParams ⟨"llama2", 1000, 7/10⟩ none none (some 0)).2.2 = 7/10 ∧
    (openaiResolvedParams ⟨"gpt-3.5-turbo", 1000, 7/10⟩ none none (some 0)).2.2 = 7/10 ∧
    (7/10 : ℚ) ≠ 0 := by
  refine ⟨rfl, rfl, by norm_num⟩

/-- C9 as amended: `max_tokens` and `temperature` fall back to the adapter's
configured defaults when unset by the caller *or when the supplied value is
zero* (Python falsiness under `or`); any nonzero caller-supplied value is
the value used in the backend request. -/
theorem adapter_numeric_param_fallback (d : AdapterDefaults) (mt : Int) (tp : ℚ)
    (hmt : mt ≠ 0) (htp : tp ≠ 0) :
    (ollamaResolvedParams d none none none).2 =
      (d.defaultMaxTokens, d.defaultTemperature) ∧
    (ollamaResolvedParams d none (some mt) (some tp)).2 = (mt, tp) ∧
    (ollamaResolvedParams d none (some 0) (some 0)).2 =
      (d.defaultMaxTokens, d.defaultTemperature) ∧
    (openaiResolvedParams d none none none).2 =
      (d.defaultMaxTokens, d.defaultTemperature) ∧
    (openaiResolvedParams d none (some mt) (some tp)).2 = (mt, tp) ∧
    (openaiResolvedParams d none (some 0) (some 0)).2 =
      (d.defaultMaxTokens, d.defaultTemperature) := by
  simp [ollamaResolvedParams, openaiResolvedParams, pyOrInt, pyOrRat, hmt, htp]

/-- Witness for C9 as amended: defaults `(1000, 0.7)`, caller supplies
`max_tokens = 500` and `temperature = 0.3`; unset and zero values fall back,
the nonzero values are used. -/
theorem adapter_numeric_param_fallback_witness :
    (ollamaResolvedParams ⟨"llama2", 1000, 7/10⟩ none none none).2 = (1000, 7/10) ∧
    (ollamaResolvedParams ⟨"llama2", 1000, 7/10⟩ none (some 500) (some (3/10))).2 =
      (500, 3/10) ∧
    (ollamaResolvedParams ⟨"llama2", 1000, 7/10⟩ none (some 0) (some 0)).2 =
      (1000, 7/10) ∧
    (openaiResolvedParams ⟨"llama2", 1000, 7/10⟩ none none none).2 = (1000, 7/10) ∧
    (openaiResolvedParams ⟨"llama2", 1000, 7/10⟩ none (some 500) (some (3/10))).2 =
      (500, 3/10) ∧
    (openaiResolvedParams ⟨"llama2", 1000, 7/10⟩ none (some 0) (some 0)).2 =
      (1000, 7/10) :=
  adapter_numeric_param_fallback ⟨"llama2", 1000, 7/10⟩ 500 (3/10)
    (by norm_num) (by norm_num)

/-- The fixed action/query mapping yields the scored text itself as query
for the compound screenshot intent and the open-application intent. -/
theorem generateActionQuery_query_eq_text (intent text : String) (p : Params)
    (h : intent = "take_screenshot_and_analyze" ∨ intent = "open_application") :
    (generateActionQuery intent text p).2 = some text := by
  rcases h with h | h <;> subst h <;> simp [generateActionQuery]

/-- The rule-based verdict's query is the scored (lowercased, trimmed) text
whenever its intent is the compound screenshot intent or the
open-application intent. -/
theorem rule_query_of_intent (textLower : String)
    (h : (ruleBasedClassification textLower).intent = "take_screenshot_and_analyze" ∨
         (ruleBasedClassification textLower).intent = "open_application") :
    (ruleBasedClassification textLower).query = some textLower := by
  have hq : (ruleBasedClassification textLower).query =
      (generateActionQuery (bestIntent textLower).1 textLower
        (bestIntent textLower).2.2).2 := rfl
  have hi : (ruleBasedClassification textLower).intent = (bestIntent textLower).1 := rfl
  rw [hi] at h
  rw [hq]
  exact generateActionQuery_query_eq_text _ _ _ h

/-- C10: with the LLM phase disabled or unavailable, `classify_intent`
depends on the input only through its lowercased, whitespace-trimmed form —
two inputs with the same canonical form yield identical verdicts — and the
query returned for the compound screenshot intent and the open-application
intent is that lowercased, trimmed input, not the original text. -/
theorem classify_intent_canonical_form (t1 t2 : String) (u a : Bool)
    (o1 o2 : Except String LLMResult)
    (hno : u = false ∨ a = false)
    (h : pyStrip (pyLower t1) = pyStrip (pyLower t2)) :
    classifyIntent t1 u a o1 = classifyIntent t2 u a o2 ∧
    (∀ (t : String) (o : Except String LLMResult),
      (classifyIntent t u a o).intent = "take_screenshot_and_analyze" ∨
      (classifyIntent t u a o).intent = "open_application" →
      (classifyIntent t u a o).query = some (pyStrip (pyLower t))) := by
  have hua : (u && a) = false := by
    rcases hno with h' | h' <;> simp [h']
  constructor
  · simp [classifyIntent, hua, h]
  · intro t o hint
    have hcl : classifyIntent t u a o = ruleBasedClassification (pyStrip (pyLower t)) := by
      simp [classifyIntent, hua]
    rw [hcl] at hint ⊢
    exact rule_query_of_intent _ hint

unseal Rat.add Rat.mul Rat.inv in
/-- Witness for C10: a mixed-case input with surrounding whitespace
classifies identically to its lowercased, trimmed form, for any LLM
outcomes, when the LLM phase is off. -/
theorem classify_intent_canonical_form_witness :
    classifyIntent "  Take a SCREENSHOT to understand this Email  " false true
      (Except.error "ignored") =
    classifyIntent "take a screenshot to understand this email" false true
      (Except.ok ⟨"chat", 1/2, "ignored", [], "llm_based"⟩) :=
  (classify_intent_canonical_form
    "  Take a SCREENSHOT to understand this Email  "
    "take a screenshot to understand this email" false true
    (Except.error "ignored")
    (Except.ok ⟨"chat", 1/2, "ignored", [], "llm_based"⟩)
    (Or.inl rfl) (by decide)).1
